import Mathlib

/-!
Verification of the essay-generation orchestration in `essay-writer-ai`.

The definitions below are a shallow embedding of the client wizard
(`src/frontend/app/components/essay-form.tsx`), the API clients
(`src/frontend/app/services/api.ts`, `src/frontend/app/api/essay-api.ts`),
the CSRF middleware (`src/frontend/middleware/csrf.ts`), the profile
helpers (`AuthContext.tsx` `ensureUserProfile`, `lib` `getUserProfile` /
`getUserCredits`), and — where the Python backend is not part of the
source tree — models written from the specification's words (those are
marked `Modelled from the spec:`).

State-mutating React handlers are embedded as pure functions from the
component's state (plus the response of the awaited call) to the next
state; JavaScript's falsy-default `x || d` on strings and numbers is
embedded explicitly.
-/

/-! ## Generic string helpers (JS `String.prototype.includes`, `x || d`) -/

/-- Prefix test on character lists. -/
def startsWithChars : List Char → List Char → Bool
  | [], _ => true
  | _ :: _, [] => false
  | a :: as, b :: bs => a == b && startsWithChars as bs

/-- Substring occurrence test on character lists. -/
def hasSubChars (pat : List Char) : List Char → Bool
  | [] => startsWithChars pat []
  | b :: bs => startsWithChars pat (b :: bs) || hasSubChars pat bs

/-- JS `s.includes(pat)`. -/
def containsSubstr (pat s : String) : Bool :=
  hasSubChars pat.data s.data

/-- JS `x || d` for a string `x` (empty string is falsy). -/
def stringOr (x d : String) : String :=
  if x = "" then d else x

/-- JS `x || d` for an optional string (missing or empty is falsy). -/
def optStringOr (x : Option String) (d : String) : String :=
  match x with
  | none => d
  | some s => stringOr s d

/-- JS `x || d` for a number (0 is falsy). -/
def intOr (x d : Int) : Int :=
  if x = 0 then d else x

/-! ## Data model: sources, outlines, job status (essay-api.ts interfaces) -/

/-- `Source` from essay-api.ts. -/
structure SourceT where
  title : String
  author : String
  publication_info : String
  author_last_name : String
  publication_year : Int
  url : String
  apa_citation : String
  relevance : String
  details : String
deriving Repr, DecidableEq

/-- `OutlineComponent` from essay-api.ts. -/
structure OutlineComponentT where
  main_idea : String
  subtopics : List String
deriving Repr, DecidableEq

/-- `OutlineResponse` from essay-api.ts. -/
structure OutlineResponseT where
  outline_components : List OutlineComponentT
deriving Repr, DecidableEq

/-- `ApiResponse` from essay-api.ts: the result payload of the
outline-and-sources job. -/
structure ApiResponseT where
  outline : OutlineResponseT
  writing_analysis : String
  sources : List (List SourceT)
deriving Repr, DecidableEq

/-- Job states: `'processing' | 'completed' | 'failed'`. -/
inductive JobState
  | processing
  | completed
  | failed
deriving Repr, DecidableEq

/-- `JobStatus` from essay-api.ts (outline-and-sources phase). -/
structure JobStatusT where
  status : JobState
  progress : Nat
  stage : String
  result : Option ApiResponseT
  error : Option String
deriving Repr, DecidableEq

/-- Result payload of the essay-generation phase; the poller reads
`status.result.paper_id`. -/
structure EssayResultT where
  paper_id : Option String
deriving Repr, DecidableEq

/-- Status record of the essay-generation phase (`/api/v1/essay-status`). -/
structure EssayStatusT where
  status : JobState
  progress : Nat
  stage : String
  result : Option EssayResultT
  error : Option String
deriving Repr, DecidableEq

/-- `JobResponse` from essay-api.ts: `{job_id, status, error?}`. -/
structure JobResponseT where
  job_id : String
  status : String
  error : Option String
deriving Repr, DecidableEq

/-! ## Wizard UI state (essay-form.tsx `useState` fields) -/

/-- One section of the editable outline (`{title, subsections}`). -/
structure OutlineSectionU where
  title : String
  subsections : List String
deriving Repr, DecidableEq

/-- The editable outline state (`{title, sections}`). -/
structure OutlineU where
  title : String
  sections : List OutlineSectionU
deriving Repr, DecidableEq

/-- One citation card in the UI. -/
structure CitationU where
  id : Nat
  title : String
  author : String
  year : Int
  selected : Bool
  publisher : String
  description : String
  relevance : String
  url : String
deriving Repr, DecidableEq

/-- `loadingStage` values: `"sources" | "outline" | null`. -/
inductive LoadStage
  | sources
  | outline
deriving Repr, DecidableEq

/-- `generationStage` record `{writing, plagiarism, finalizing}`. -/
structure GenStage where
  writing : Bool
  plagiarism : Bool
  finalizing : Bool
deriving Repr, DecidableEq

/-- `PLACEHOLDER_OUTLINE` from essay-form.tsx. -/
def placeholderOutline : OutlineU :=
  { title := "The Impact of Social Media"
    sections :=
      [ { title := "Introduction"
          subsections := ["Background of social media", "Thesis statement"] }
      , { title := "Positive Effects"
          subsections := ["Enhanced connectivity", "Business opportunities", "Information sharing"] }
      , { title := "Negative Effects"
          subsections := ["Mental health concerns", "Privacy issues", "Addiction"] }
      , { title := "Conclusion"
          subsections := ["Summary of findings", "Future implications"] } ] }

/-- `PLACEHOLDER_CITATIONS` from essay-form.tsx. -/
def placeholderCitations : List CitationU :=
  [ { id := 1, title := "The Impact of Social Media on Modern Society"
      author := "John Smith", year := 2022, selected := false
      publisher := "Journal of Digital Studies"
      description := "A comprehensive study examining how social media platforms have transformed societal interactions"
      relevance := "Directly addresses the impact of social media on communication patterns"
      url := "https://example.com/paper1" }
  , { id := 2, title := "Digital Age Communication"
      author := "Sarah Johnson", year := 2021, selected := false
      publisher := "Communications Quarterly"
      description := "Analysis of communication methods in the digital era"
      relevance := "Provides historical context and current trends in digital communication"
      url := "https://example.com/paper2" }
  , { id := 3, title := "Understanding Social Networks"
      author := "Michael Brown", year := 2023, selected := false
      publisher := "Tech & Society Review"
      description := "Research on social network dynamics and their influence on society"
      relevance := "Explores the psychological aspects of social media interaction"
      url := "https://example.com/paper3" } ]

/-- The `EssayForm` component state (the `useState` fields the embedded
handlers read or write). -/
structure WizState where
  currentStep : Nat
  topic : String
  wordCount : Nat
  citationFormat : String
  writingStyle : String
  studentName : String
  professorName : String
  className : String
  pastedAssignment : String
  pastedEssay : String
  uploadedFile : Option String
  uploadedAssignment : Option String
  writingAnalysis : String
  outline : OutlineU
  citations : List CitationU
  apiOutline : Option OutlineResponseT
  apiSources : List (List SourceT)
  error : Option String
  isLoading : Bool
  isGeneratingOutline : Bool
  isGeneratingEssay : Bool
  loadingProgress : Nat
  loadingStage : Option LoadStage
  generationStage : GenStage
  jobId : Option String
  essayJobId : Option String
  userCredits : Option Int
  insufficientCredits : Bool
  redirect : Option String
deriving Repr, DecidableEq

/-- Total number of wizard steps (`totalSteps = 6`). -/
def totalSteps : Nat := 6

/-- `getStepTitle` from essay-form.tsx: identifies which wizard step a
step number denotes. -/
def stepTitle : Nat → String
  | 1 => "Essay Topic"
  | 2 => "Word Count"
  | 3 => "Format & Style"
  | 4 => "Writing Style Analysis"
  | 5 => "Citations"
  | 6 => "Outline"
  | _ => ""

/-! ## Guardrail detection (essay-form.tsx error branching) -/

/-- The guardrail test used in both submission handlers:
`error.includes("Malicious prompt") || error.includes("detected something strange")`. -/
def isGuardrailError (e : String) : Bool :=
  containsSubstr "Malicious prompt" e || containsSubstr "detected something strange" e

/-- Rewrite message shown when the outline-and-sources submission is
rejected by the guardrail. -/
def topicRewriteMessage : String :=
  "We detected something strange in your assignment topic and description. Please rewrite it."

/-- Rewrite message shown when the generate-essay submission is rejected
by the guardrail. -/
def outlineRewriteMessage : String :=
  "We detected something strange in your outline. Please make adjustments to it."

/-- `fetchSourcesAndOutline` (essay-form.tsx): the state updates performed
before the request, followed by the branch on the awaited
`startOutlineAndSourcesJob` response (`.error e` is the thrown/caught
path, with `e` the caught error's message). -/
def fetchSourcesAndOutline (s : WizState) (resp : Except String JobResponseT) : WizState :=
  let s0 := { s with isLoading := true, isGeneratingOutline := true,
                     loadingProgress := 0, loadingStage := some LoadStage.sources,
                     error := none }
  match resp with
  | Except.error e =>
      { s0 with error := some e, isLoading := false, isGeneratingOutline := false,
                loadingProgress := 0, loadingStage := none }
  | Except.ok r =>
      match r.error with
      | some e =>
          if isGuardrailError e then
            { s0 with error := some topicRewriteMessage, isLoading := false,
                      isGeneratingOutline := false, loadingProgress := 0,
                      loadingStage := none, currentStep := 1 }
          else
            { s0 with error := some e, isLoading := false, isGeneratingOutline := false,
                      loadingProgress := 0, loadingStage := none }
      | none => { s0 with jobId := some r.job_id }

/-- `generateFinalEssay` (essay-form.tsx): the state updates performed
before the request, followed by the branch on the awaited
`generateEssayJob` response. -/
def generateFinalEssay (s : WizState) (resp : Except String JobResponseT) : WizState :=
  let s0 := { s with isLoading := true, isGeneratingEssay := true,
                     loadingProgress := 0,
                     generationStage := ⟨true, false, false⟩,
                     error := none }
  match resp with
  | Except.error e =>
      { s0 with error := some e, isLoading := false, isGeneratingEssay := false,
                loadingProgress := 0,
                generationStage := ⟨false, false, false⟩ }
  | Except.ok r =>
      match r.error with
      | some e =>
          if isGuardrailError e then
            { s0 with error := some outlineRewriteMessage, isLoading := false,
                      isGeneratingEssay := false, loadingProgress := 0,
                      generationStage := ⟨false, false, false⟩,
                      currentStep := 2 }
          else
            { s0 with error := some e, isLoading := false, isGeneratingEssay := false,
                      loadingProgress := 0,
                      generationStage := ⟨false, false, false⟩ }
      | none => { s0 with essayJobId := some r.job_id }

/-! ## Client poller (essay-form.tsx useEffect polling loops) -/

/-- The `setInterval` cadence of the outline-and-sources poller (ms). -/
def pollIntervalMs : Nat := 2000

/-- The `setInterval` cadence of the essay-generation poller (ms). -/
def essayPollIntervalMs : Nat := 2000

/-- Conversion of one API source into a UI citation card, as written in
the completed branch of `pollJobStatus` (JS `||` defaults embedded via
`stringOr`/`intOr`; `nowYear` is `new Date().getFullYear()`). -/
def convertSource (nowYear : Int) (i : Nat) (src : SourceT) : CitationU :=
  { id := i + 1
    title := stringOr src.title "Unknown Title"
    author := stringOr src.author "Unknown"
    year := intOr src.publication_year nowYear
    selected := false
    publisher := stringOr src.publication_info "Academic Source"
    description := src.details
    relevance := stringOr src.relevance "Relevant to your topic"
    url := stringOr src.url "#" }

/-- One iteration of `pollJobStatus` (outline-and-sources poller):
given the state and the outcome of `getJobStatus` (`.error` = the thrown
path caught by the `catch` branch), returns the next state and the
"done polling" flag the loop uses to `clearInterval`. -/
def pollJobStatusStep (nowYear : Int) (s : WizState) (r : Except String JobStatusT) :
    WizState × Bool :=
  match r with
  | Except.error e =>
      ({ s with error := some e, isLoading := false, isGeneratingOutline := false,
                loadingProgress := 0, loadingStage := none, jobId := none }, true)
  | Except.ok st =>
      let s1 := { s with loadingProgress := st.progress }
      let s2 :=
        if st.stage = "creating_outline" then { s1 with loadingStage := some LoadStage.outline }
        else if st.stage = "finding_sources" then { s1 with loadingStage := some LoadStage.sources }
        else s1
      match st.status, st.result with
      | JobState.completed, some res =>
          let convertedOutline : OutlineU :=
            { title := s2.topic
              sections := res.outline.outline_components.map
                (fun c => { title := c.main_idea, subsections := c.subtopics }) }
          let flatSources := res.sources.flatten
          let convertedSources := flatSources.enum.map (fun p => convertSource nowYear p.1 p.2)
          ({ s2 with apiOutline := some res.outline,
                     writingAnalysis := res.writing_analysis,
                     apiSources := res.sources,
                     outline := convertedOutline,
                     citations := convertedSources,
                     isLoading := false, isGeneratingOutline := false,
                     loadingProgress := 100, loadingStage := none,
                     currentStep := 5, jobId := none }, true)
      | JobState.failed, _ =>
          ({ s2 with error := some (optStringOr st.error "Job failed"),
                     isLoading := false, isGeneratingOutline := false,
                     loadingProgress := 0, loadingStage := none, jobId := none }, true)
      | _, _ => (s2, false)

/-- One iteration of `pollEssayStatus` (essay-generation poller). -/
def pollEssayStatusStep (s : WizState) (r : Except String EssayStatusT) :
    WizState × Bool :=
  match r with
  | Except.error e =>
      ({ s with error := some e, isLoading := false, isGeneratingEssay := false,
                loadingProgress := 0, generationStage := ⟨false, false, false⟩,
                essayJobId := none }, true)
  | Except.ok st =>
      let s1 := { s with loadingProgress := st.progress }
      let s2 :=
        if st.stage = "writing_essay" then { s1 with generationStage := ⟨true, false, false⟩ }
        else if st.stage = "checking_plagiarism" then { s1 with generationStage := ⟨true, true, false⟩ }
        else if st.stage = "finalizing" then { s1 with generationStage := ⟨true, true, true⟩ }
        else s1
      match st.status, st.result with
      | JobState.completed, some res =>
          match res.paper_id with
          | some pid =>
              ({ s2 with redirect := some ("/dashboard?tab=history&highlight=" ++ pid),
                         essayJobId := none }, true)
          | none =>
              ({ s2 with isLoading := false, isGeneratingEssay := false,
                         loadingProgress := 0, generationStage := ⟨false, false, false⟩,
                         essayJobId := none }, true)
      | JobState.failed, _ =>
          ({ s2 with error := some (optStringOr st.error "Essay generation failed"),
                     isLoading := false, isGeneratingEssay := false,
                     loadingProgress := 0, generationStage := ⟨false, false, false⟩,
                     essayJobId := none }, true)
      | _, _ => (s2, false)

/-! ## Credits in the client (fetchCredits effect, purchase overlay) -/

/-- The `fetchCredits` effect in essay-form.tsx: on success stores the
fetched number and sets `insufficientCredits` to `credits < 2`; the
`catch` branch stores 0 and sets `insufficientCredits`. -/
def applyFetchCredits (s : WizState) (r : Except String Int) : WizState :=
  match r with
  | Except.ok credits =>
      { s with userCredits := some credits, insufficientCredits := decide (credits < 2) }
  | Except.error _ =>
      { s with userCredits := some 0, insufficientCredits := true }

/-- The render condition of the purchase-credits overlay in essay-form.tsx:
`((userCredits !== null && userCredits <= 0) || insufficientCredits) && currentStep === 1`. -/
def purchaseOverlayShown (s : WizState) : Bool :=
  ((match s.userCredits with
    | some c => decide (c ≤ 0)
    | none => false) || s.insufficientCredits) && s.currentStep == 1

/-- Result of `essayAPI.startOutlineAndSourcesJob` in services/api.ts:
either the backend's `{job_id, ...}` data or, from the `catch` branch, an
object carrying only an `error` message and no job id. -/
inductive StartJobResult
  | jobStarted (job_id : String) (status : String)
  | errorOnly (msg : String)
deriving Repr, DecidableEq

/-- The `catch` branch of `essayAPI.startOutlineAndSourcesJob`
(services/api.ts): an axios error whose response data carries an `error`
string containing "Insufficient credits" is mapped to a purchase message;
any other failure to a generic message. `r` is the HTTP outcome, where
`.error d` carries the error-response data's optional `error` string. -/
def startOutlineAndSourcesJob (r : Except (Option String) JobResponseT) : StartJobResult :=
  match r with
  | Except.ok d => StartJobResult.jobStarted d.job_id d.status
  | Except.error d =>
      match d with
      | some msg =>
          if containsSubstr "Insufficient credits" msg then
            StartJobResult.errorOnly "Insufficient credits. Please purchase credits to continue."
          else
            StartJobResult.errorOnly "Failed to start outline generation"
      | none => StartJobResult.errorOnly "Failed to start outline generation"

/-! ## Spec-modelled backend credit gate

The Python backend (`essaygenius_backend`) is not under `src/`; only its
README and Dockerfile are. Its credit gate is therefore modelled from the
specification. -/

/-- Modelled from the spec: the Credit Ledger contract (§4.1, backend
`essaygenius_backend` services — code not under `src/`):
`debit(user, amount) -> success|InsufficientBalance`, with
`InsufficientBalance` exactly when balance < amount. -/
inductive DebitResult
  | success (newBalance : Nat)
  | insufficientBalance
deriving Repr, DecidableEq

/-- Modelled from the spec: the debit operation of the Credit Ledger. -/
def debit (balance amount : Nat) : DebitResult :=
  if balance < amount then DebitResult.insufficientBalance
  else DebitResult.success (balance - amount)

/-- Observed cost of a full essay generation: 2 credits. -/
def essayCost : Nat := 2

/-- Modelled from the spec: `submit` (§4.2, backend code not under `src/`)
performs the credit debit and creates a Job only when the debit
succeeds; on `InsufficientBalance` no job is created. Returns the
optional new job id and the debit outcome. -/
def submit (balance : Nat) (freshJobId : String) : Option String × DebitResult :=
  match debit balance essayCost with
  | DebitResult.insufficientBalance => (none, DebitResult.insufficientBalance)
  | DebitResult.success b => (some freshJobId, DebitResult.success b)

/-! ## Start-over handler (essay-form.tsx `handleStartOver`) -/

/-- `handleStartOver` (essay-form.tsx): with an error present, routes back
to step 3 when the failure happened during essay generation
(`isGeneratingEssay || currentStep === 4`), else to step 1 when during
outline generation (`isGeneratingOutline || currentStep === 3`), then
clears the error; without an error it resets the wizard to its initial
placeholders. -/
def handleStartOver (s : WizState) : WizState :=
  if s.error.isSome then
    let s1 :=
      if s.isGeneratingEssay || s.currentStep == 4 then { s with currentStep := 3 }
      else if s.isGeneratingOutline || s.currentStep == 3 then { s with currentStep := 1 }
      else s
    { s1 with error := none }
  else
    { s with currentStep := 1, pastedAssignment := "", pastedEssay := "",
             uploadedFile := none, uploadedAssignment := none,
             outline := placeholderOutline, citations := placeholderCitations,
             isGeneratingOutline := false, isGeneratingEssay := false,
             error := none }

/-- The client together with the server-side credit balance. The
`handleStartOver` handler issues no request: it only rewrites component
state, so the balance is carried through unchanged. -/
structure ClientModel where
  wiz : WizState
  balance : Nat
deriving Repr, DecidableEq

/-- `handleStartOver` lifted to the client model: no debit call occurs in
the handler's body, so the ledger side is the identity. -/
def handleStartOverClient (m : ClientModel) : ClientModel :=
  { m with wiz := handleStartOver m.wiz }

/-! ## User profile (AuthContext.tsx `ensureUserProfile`) -/

/-- A row of the `user_profiles` table. -/
structure UserProfileRow where
  id : String
  email : String
  credits : Int
  created_at : String
  updated_at : String
deriving Repr, DecidableEq

/-- The update applied to a row by `ensureUserProfile` when a profile
already exists: only `email` and `updated_at` change
(`.update({email, updated_at}).eq('id', userId)`). -/
def profileEmailUpdate (userId email now : String) (p : UserProfileRow) : UserProfileRow :=
  if p.id == userId then { p with email := email, updated_at := now } else p

/-- `ensureUserProfile` (AuthContext.tsx) acting on the `user_profiles`
table: if the per-session localStorage marker is set it does nothing;
otherwise it updates the existing row's email/timestamp, or inserts a new
row with `credits := 2` when no row for `userId` exists. -/
def ensureUserProfile (processed : Bool) (db : List UserProfileRow)
    (userId email now : String) : List UserProfileRow :=
  if processed then db
  else
    match db.find? (fun p => p.id == userId) with
    | some _ => db.map (profileEmailUpdate userId email now)
    | none =>
        db ++ [{ id := userId, email := email, credits := 2,
                 created_at := now, updated_at := now }]

/-! ## Credits lookup in the client library (lib `getUserProfile`, `getUserCredits`) -/

/-- Outcome of one Supabase call in the embedding: a value, an error
result (`{data, error}` with `error` set), or a thrown exception. -/
inductive DbRes (α : Type)
  | ok (a : α) : DbRes α
  | err (e : String) : DbRes α
  | thrown (e : String) : DbRes α
deriving Repr, DecidableEq

/-- `getUserProfile` (lib): returns `null` when `auth.getUser` errors or
yields no user, when the profile query errors (including "no row" from
`.single()`), or when anything throws; otherwise the fetched row. -/
def getUserProfile (user : DbRes (Option String))
    (fetchProfile : String → DbRes UserProfileRow) : Option UserProfileRow :=
  match user with
  | DbRes.err _ => none
  | DbRes.thrown _ => none
  | DbRes.ok none => none
  | DbRes.ok (some uid) =>
      match fetchProfile uid with
      | DbRes.ok p => some p
      | DbRes.err _ => none
      | DbRes.thrown _ => none

/-- `getUserCredits` (lib): `profile?.credits || 0` under a catch-all that
returns 0. -/
def getUserCredits (user : DbRes (Option String))
    (fetchProfile : String → DbRes UserProfileRow) : Int :=
  match getUserProfile user fetchProfile with
  | none => 0
  | some p => intOr p.credits 0

/-! ## CSRF middleware (middleware/csrf.ts) and client token lookup -/

/-- A cookie in the browser's jar; `document.cookie` exposes only those
with `httpOnly = false`. -/
structure BrowserCookie where
  name : String
  value : String
  httpOnly : Bool
deriving Repr, DecidableEq

/-- The cookies visible to client script (`document.cookie`). -/
def documentCookies (jar : List BrowserCookie) : List BrowserCookie :=
  jar.filter (fun c => !c.httpOnly)

/-- `getCsrfToken` (services/api.ts request interceptor, also
hooks/use-csrf.ts): reads the `csrf-token` cookie out of `document.cookie`. -/
def getCsrfToken (jar : List BrowserCookie) : Option String :=
  ((documentCookies jar).find? (fun c => c.name == "csrf-token")).map (fun c => c.value)

/-- The `x-csrf-token` header the api.ts interceptor attaches: the cookie
value, only for POST/PUT/DELETE/PATCH and only when the cookie is visible. -/
def apiCsrfHeader (jar : List BrowserCookie) (method : String) : Option String :=
  match getCsrfToken jar with
  | some t =>
      if ["POST", "PUT", "DELETE", "PATCH"].contains method then some t else none
  | none => none

/-- `hashToken` (csrf.ts): SHA-256 over `token + CSRF_SECRET`, hex-encoded.
The digest itself is the Web Crypto collaborator, embedded as the
function parameter `h`. -/
def hashToken (h : String → String) (secret token : String) : String :=
  h (token ++ secret)

/-- `verifyToken` (csrf.ts): recompute the hash of the presented token and
compare with the stored hash. -/
def verifyToken (h : String → String) (secret token hash : String) : Bool :=
  hashToken h secret token == hash

/-- Outcome of the CSRF middleware: pass the request through (possibly
setting the `csrf-token` cookie on the forwarded response), or a 403. -/
inductive CsrfOutcome
  | next (setCookie : Option String)
  | forbidden403
deriving Repr, DecidableEq

/-- A request as seen by `csrfMiddleware`: its method, the `csrf-token`
cookie if the request carries one, and the `x-csrf-token` header if any. -/
structure CsrfRequest where
  method : String
  csrfCookie : Option String
  headerToken : Option String
deriving Repr, DecidableEq

/-- `csrfMiddleware` (csrf.ts): GET/HEAD/OPTIONS pass; otherwise, when no
cookie is present a fresh token is generated and its hash stored in the
(httpOnly) cookie while the raw token stays in the local variable; then
the `x-csrf-token` header is required and `verifyToken` must accept it
against that local variable. On failure a fresh 403 response (without
the set-cookie) is returned. -/
def csrfMiddleware (h : String → String) (secret freshToken : String)
    (req : CsrfRequest) : CsrfOutcome :=
  if ["GET", "HEAD", "OPTIONS"].contains req.method then CsrfOutcome.next none
  else
    let p : String × Option String :=
      match req.csrfCookie with
      | some v => (v, none)
      | none => (freshToken, some (hashToken h secret freshToken))
    match req.headerToken with
    | none => CsrfOutcome.forbidden403
    | some ht =>
        if verifyToken h secret ht p.1 then CsrfOutcome.next p.2
        else CsrfOutcome.forbidden403

/-! ## Spec-modelled backend job progress

The backend job runner is not under `src/`; its progress reporting is
modelled from the specification. -/

/-- Modelled from the spec: progress values are stage-indexed
approximations (§4.2, backend code not under `src/`) — after completing
`k` of `n` pipeline stages the Job record reports `⌊100·k/n⌋`, capped at
100. -/
def stageProgress (n k : Nat) : Nat :=
  min 100 (k * 100 / n)

/-- Stage labels of the outline-and-sources phase, in pipeline order. -/
def outlinePhaseStages : List String := ["creating_outline", "finding_sources"]

/-- Stage labels of the essay-generation phase, in pipeline order. -/
def essayPhaseStages : List String := ["writing_essay", "checking_plagiarism", "finalizing"]

/-- Modelled from the spec: the progress a `getStatus` snapshot reports
once the pipeline for `stages` has completed `k` stages. -/
def jobProgressAt (stages : List String) (k : Nat) : Nat :=
  stageProgress stages.length k

/-! ## Concrete states for witnesses -/

/-- The component's initial state (the `useState` initial values in
essay-form.tsx). -/
def initialWizState : WizState :=
  { currentStep := 1, topic := "", wordCount := 1500, citationFormat := "apa",
    writingStyle := "", studentName := "", professorName := "", className := "",
    pastedAssignment := "", pastedEssay := "", uploadedFile := none,
    uploadedAssignment := none, writingAnalysis := "",
    outline := placeholderOutline, citations := placeholderCitations,
    apiOutline := none, apiSources := [], error := none, isLoading := false,
    isGeneratingOutline := false, isGeneratingEssay := false,
    loadingProgress := 0, loadingStage := none,
    generationStage := ⟨false, false, false⟩, jobId := none, essayJobId := none,
    userCredits := none, insufficientCredits := false, redirect := none }

/-- A state sitting on the outline-editing step (step 6), at which
`generateFinalEssay` is invoked. -/
def wizAtOutlineStep : WizState :=
  { initialWizState with currentStep := 6, topic := "Climate Change Impact" }

/-- A state in the middle of polling the outline-and-sources job. -/
def wizPollingOutline : WizState :=
  { initialWizState with isLoading := true, isGeneratingOutline := true,
                         jobId := some "job-1", loadingStage := some LoadStage.sources }

/-- A state in the middle of polling the essay-generation job. -/
def wizPollingEssay : WizState :=
  { initialWizState with currentStep := 6, isLoading := true,
                         isGeneratingEssay := true, essayJobId := some "job-2",
                         generationStage := ⟨true, false, false⟩ }

/-! ## C3 — outline-and-sources guardrail routing -/

/-- C3: for every outline-and-sources submission whose response carries an
error message, a guardrail message (containing "Malicious prompt" or
"detected something strange") routes the wizard back to the topic-input
step (step 1, "Essay Topic") with the rewrite message, while any other
error is surfaced as an ordinary failure without changing the step. -/
theorem guardrail_outline_routes_to_topic_step (s : WizState) (r : JobResponseT)
    (e : String) (he : r.error = some e) :
    (isGuardrailError e = true →
      (fetchSourcesAndOutline s (Except.ok r)).currentStep = 1 ∧
      (fetchSourcesAndOutline s (Except.ok r)).error = some topicRewriteMessage ∧
      stepTitle 1 = "Essay Topic") ∧
    (isGuardrailError e = false →
      (fetchSourcesAndOutline s (Except.ok r)).error = some e ∧
      (fetchSourcesAndOutline s (Except.ok r)).currentStep = s.currentStep ∧
      (fetchSourcesAndOutline s (Except.ok r)).isLoading = false) := by
  constructor <;> intro hg <;>
    simp [fetchSourcesAndOutline, he, hg, stepTitle]

/-- Witness for C3: a concrete guardrail rejection routes to step 1 with
the rewrite message, and a concrete ordinary error does not. -/
theorem guardrail_outline_routes_to_topic_step_witness :
    (fetchSourcesAndOutline wizAtOutlineStep
      (Except.ok ⟨"", "", some "Malicious prompt detected"⟩)).currentStep = 1 ∧
    (fetchSourcesAndOutline wizAtOutlineStep
      (Except.ok ⟨"", "", some "Malicious prompt detected"⟩)).error =
        some topicRewriteMessage ∧
    (fetchSourcesAndOutline wizAtOutlineStep
      (Except.ok ⟨"", "", some "OpenAI unavailable"⟩)).error =
        some "OpenAI unavailable" := by
  refine ⟨?_, ?_, ?_⟩
  · exact ((guardrail_outline_routes_to_topic_step wizAtOutlineStep
      ⟨"", "", some "Malicious prompt detected"⟩ "Malicious prompt detected" rfl).1
      (by decide)).1
  · exact ((guardrail_outline_routes_to_topic_step wizAtOutlineStep
      ⟨"", "", some "Malicious prompt detected"⟩ "Malicious prompt detected" rfl).1
      (by decide)).2.1
  · exact ((guardrail_outline_routes_to_topic_step wizAtOutlineStep
      ⟨"", "", some "OpenAI unavailable"⟩ "OpenAI unavailable" rfl).2
      (by decide)).1

/-! ## C2 — generate-essay guardrail routing (code bug) -/

/-- C2: the claim (and the code's own comment "Go back to outline editing
step") says a guardrail rejection of the generate-essay submission routes
back to the outline-editing step; the outline-editing step is step 6
("Outline"), but the code sets `currentStep` to 2 ("Word Count"); the
start-over path for essay-generation failures likewise sets step 3
("Format & Style"). Evaluated at a concrete guardrail rejection issued
from the outline step. -/
theorem guardrail_essay_misroutes_word_count_step :
    (generateFinalEssay wizAtOutlineStep
      (Except.ok ⟨"job-9", "processing", some "Malicious prompt detected"⟩)).currentStep = 2 ∧
    (generateFinalEssay wizAtOutlineStep
      (Except.ok ⟨"job-9", "processing", some "Malicious prompt detected"⟩)).error =
        some outlineRewriteMessage ∧
    stepTitle 2 = "Word Count" ∧ stepTitle 6 = "Outline" ∧ stepTitle 1 = "Essay Topic" ∧
    (handleStartOver { wizAtOutlineStep with
        error := some "Essay generation failed",
        isGeneratingEssay := true }).currentStep = 3 ∧
    stepTitle 3 = "Format & Style" := by
  decide

/-! ## C4 — poller retry tolerance (corrected: there is none) -/

/-- C4 counterexample: a single `getStatus` throw immediately terminates
polling (the loop's done flag is `true`) and surfaces the error to the
user, in both pollers — there is no retry allowance at all. -/
theorem single_poll_error_stops_polling :
    (pollJobStatusStep 2025 wizPollingOutline (Except.error "Network Error")).2 = true ∧
    (pollJobStatusStep 2025 wizPollingOutline (Except.error "Network Error")).1.error =
      some "Network Error" ∧
    (pollEssayStatusStep wizPollingEssay (Except.error "Network Error")).2 = true ∧
    (pollEssayStatusStep wizPollingEssay (Except.error "Network Error")).1.error =
      some "Network Error" := by
  decide

/-- C4 amended: the retry allowance is zero — every `getStatus` throw
terminates polling at once, clears the job id, resets the loading state
and surfaces the error, in both the outline poller and the essay poller. -/
theorem poll_error_zero_retry_allowance (nowYear : Int) (s : WizState) (e : String) :
    pollJobStatusStep nowYear s (Except.error e) =
      ({ s with error := some e, isLoading := false, isGeneratingOutline := false,
                loadingProgress := 0, loadingStage := none, jobId := none }, true) ∧
    pollEssayStatusStep s (Except.error e) =
      ({ s with error := some e, isLoading := false, isGeneratingEssay := false,
                loadingProgress := 0, generationStage := ⟨false, false, false⟩,
                essayJobId := none }, true) :=
  ⟨rfl, rfl⟩

/-! ## C5 — polling cadence, per-poll display updates, termination -/

/-- C5: both pollers run on a fixed 2000 ms interval; for a well-formed
status (a completed status carries its result, per the spec's Job data
model), one poll iteration terminates polling exactly when the observed
status is terminal (not `processing`) or the fetch threw; while the job
is processing, the displayed progress is updated to the fetched value and
the displayed stage follows the fetched stage label. -/
theorem poll_two_second_cadence_until_terminal (nowYear : Int) (s : WizState)
    (st : JobStatusT) (est : EssayStatusT)
    (hwf : st.status = JobState.completed → st.result.isSome = true)
    (hewf : est.status = JobState.completed → est.result.isSome = true) :
    pollIntervalMs = 2000 ∧ essayPollIntervalMs = 2000 ∧
    ((pollJobStatusStep nowYear s (Except.ok st)).2 = true ↔
       st.status ≠ JobState.processing) ∧
    (st.status = JobState.processing →
       (pollJobStatusStep nowYear s (Except.ok st)).1.loadingProgress = st.progress) ∧
    (st.status = JobState.processing → st.stage = "creating_outline" →
       (pollJobStatusStep nowYear s (Except.ok st)).1.loadingStage = some LoadStage.outline) ∧
    (∀ e, (pollJobStatusStep nowYear s (Except.error e)).2 = true) ∧
    ((pollEssayStatusStep s (Except.ok est)).2 = true ↔
       est.status ≠ JobState.processing) ∧
    (est.status = JobState.processing →
       (pollEssayStatusStep s (Except.ok est)).1.loadingProgress = est.progress) ∧
    (est.status = JobState.processing → est.stage = "writing_essay" →
       (pollEssayStatusStep s (Except.ok est)).1.generationStage = ⟨true, false, false⟩) ∧
    (∀ e, (pollEssayStatusStep s (Except.error e)).2 = true) := by
  obtain ⟨sts, prog, stg, res, err⟩ := st
  obtain ⟨ests, eprog, estg, eres, eerr⟩ := est
  refine ⟨rfl, rfl, ?_, ?_, ?_, fun e => rfl, ?_, ?_, ?_, fun e => rfl⟩
  · cases sts <;> cases res <;> simp_all [pollJobStatusStep]
  · intro h
    subst h
    cases res <;> simp only [pollJobStatusStep] <;> split_ifs <;> rfl
  · intro h hstage
    subst h
    subst hstage
    cases res <;> simp [pollJobStatusStep]
  · cases ests <;> rcases eres with _ | ⟨_ | pid⟩ <;>
      simp_all [pollEssayStatusStep]
  · intro h
    subst h
    cases eres <;> simp only [pollEssayStatusStep] <;> split_ifs <;> rfl
  · intro h hstage
    subst h
    subst hstage
    cases eres <;> simp [pollEssayStatusStep]

/-- Witness for C5: at a concrete processing snapshot polling continues
and the displayed progress is the fetched 37; at a concrete failed
snapshot polling stops. -/
theorem poll_two_second_cadence_until_terminal_witness :
    (pollJobStatusStep 2025 wizPollingOutline
      (Except.ok ⟨JobState.processing, 37, "finding_sources", none, none⟩)).2 = false ∧
    (pollJobStatusStep 2025 wizPollingOutline
      (Except.ok ⟨JobState.processing, 37, "finding_sources", none, none⟩)).1.loadingProgress = 37 ∧
    (pollJobStatusStep 2025 wizPollingOutline
      (Except.ok ⟨JobState.failed, 50, "finding_sources", none, some "boom"⟩)).2 = true := by
  have hproc := poll_two_second_cadence_until_terminal 2025 wizPollingOutline
    ⟨JobState.processing, 37, "finding_sources", none, none⟩
    ⟨JobState.processing, 10, "writing_essay", none, none⟩
    (by decide) (by decide)
  have hfail := poll_two_second_cadence_until_terminal 2025 wizPollingOutline
    ⟨JobState.failed, 50, "finding_sources", none, some "boom"⟩
    ⟨JobState.processing, 10, "writing_essay", none, none⟩
    (by decide) (by decide)
  refine ⟨?_, hproc.2.2.2.1 rfl, hfail.2.2.1.mpr (by decide)⟩
  have h3 := hproc.2.2.1
  by_contra hne
  simp only [Bool.not_eq_false] at hne
  exact (h3.mp hne) rfl

/-! ## C1 — insufficient balance blocks generation -/

/-- C1: a user whose balance is below 2 cannot run a 2-credit generation:
the spec-modelled backend `submit` yields `InsufficientBalance` and
creates no job; after the client fetches such a balance it flags
`insufficientCredits` and, on the topic-input step, renders the
purchase-credits overlay; an insufficient-credits error response from the
start-job call is mapped to a purchase message carrying no job id. -/
theorem insufficient_balance_blocks_generation (balance : Nat) (hb : balance < 2)
    (s : WizState) (hstep : s.currentStep = 1) (jid msg : String)
    (hmsg : containsSubstr "Insufficient credits" msg = true) :
    submit balance jid = (none, DebitResult.insufficientBalance) ∧
    (applyFetchCredits s (Except.ok (balance : Int))).insufficientCredits = true ∧
    purchaseOverlayShown (applyFetchCredits s (Except.ok (balance : Int))) = true ∧
    startOutlineAndSourcesJob (Except.error (some msg)) =
      StartJobResult.errorOnly "Insufficient credits. Please purchase credits to continue." := by
  have hbi : (balance : Int) < 2 := by exact_mod_cast hb
  refine ⟨?_, ?_, ?_, ?_⟩
  · simp [submit, debit, essayCost, hb]
  · simp [applyFetchCredits, hbi]
  · simp [purchaseOverlayShown, applyFetchCredits, hbi, hstep]
  · simp [startOutlineAndSourcesJob, hmsg]

/-- Witness for C1: balance 1, the initial wizard state, and the
backend's literal insufficient-credits error message. -/
theorem insufficient_balance_blocks_generation_witness :
    submit 1 "job-7" = (none, DebitResult.insufficientBalance) ∧
    purchaseOverlayShown (applyFetchCredits initialWizState (Except.ok 1)) = true ∧
    startOutlineAndSourcesJob (Except.error (some "Insufficient credits")) =
      StartJobResult.errorOnly "Insufficient credits. Please purchase credits to continue." := by
  have h := insufficient_balance_blocks_generation 1 (by decide) initialWizState
    (by decide) "job-7" "Insufficient credits" (by decide)
  exact ⟨h.1, h.2.2.1, h.2.2.2⟩

/-! ## C6 — two free credits at account creation -/

/-- C6: `ensureUserProfile` inserts a profile with exactly 2 credits when
no row for the user id exists, and when a row exists it rewrites the
table with an update that changes only `email` and `updated_at`, leaving
the credit balance (and id and creation time) of every row unchanged. -/
theorem ensure_profile_grants_two_credits (db : List UserProfileRow)
    (uid em now : String) :
    (db.find? (fun p => p.id == uid) = none →
       ensureUserProfile false db uid em now =
         db ++ [{ id := uid, email := em, credits := 2,
                  created_at := now, updated_at := now }]) ∧
    (∀ q, db.find? (fun p => p.id == uid) = some q →
       ensureUserProfile false db uid em now = db.map (profileEmailUpdate uid em now)) ∧
    (∀ p, (profileEmailUpdate uid em now p).credits = p.credits ∧
          (profileEmailUpdate uid em now p).id = p.id ∧
          (profileEmailUpdate uid em now p).created_at = p.created_at) := by
  refine ⟨?_, ?_, ?_⟩
  · intro h
    simp [ensureUserProfile, h]
  · intro q h
    simp [ensureUserProfile, h]
  · intro p
    unfold profileEmailUpdate
    split <;> simp

/-- Witness for C6: on a table holding only user "u1", ensuring "u2"
appends a fresh row with 2 credits, while ensuring "u1" (who has 7
credits) keeps the balance at 7. -/
theorem ensure_profile_grants_two_credits_witness :
    ensureUserProfile false [⟨"u1", "a@x", 7, "t0", "t0"⟩] "u2" "b@x" "t1" =
      [⟨"u1", "a@x", 7, "t0", "t0"⟩, ⟨"u2", "b@x", 2, "t1", "t1"⟩] ∧
    ensureUserProfile false [⟨"u1", "a@x", 7, "t0", "t0"⟩] "u1" "c@x" "t1" =
      [⟨"u1", "c@x", 7, "t0", "t1"⟩] := by
  constructor
  · exact (ensure_profile_grants_two_credits [⟨"u1", "a@x", 7, "t0", "t0"⟩]
      "u2" "b@x" "t1").1 (by decide)
  · have h := (ensure_profile_grants_two_credits [⟨"u1", "a@x", 7, "t0", "t0"⟩]
      "u1" "c@x" "t1").2.1 ⟨"u1", "a@x", 7, "t0", "t0"⟩ (by decide)
    rw [h]
    decide

/-! ## C7 — start-over after a failure preserves the entered input -/

/-- C7: when an error is present, `handleStartOver` preserves every
already-entered input (topic, assignment description, pasted essay,
student/professor/class names, word count, format and style choices),
clears the error, performs no credit debit (the server-side balance is
untouched), and routes to the earlier step appropriate to the failed
phase: step 3 after an essay-generation failure, step 1 after an
outline-generation failure. -/
theorem start_over_preserves_inputs (m : ClientModel)
    (h : m.wiz.error.isSome = true) :
    (handleStartOver m.wiz).topic = m.wiz.topic ∧
    (handleStartOver m.wiz).pastedAssignment = m.wiz.pastedAssignment ∧
    (handleStartOver m.wiz).pastedEssay = m.wiz.pastedEssay ∧
    (handleStartOver m.wiz).studentName = m.wiz.studentName ∧
    (handleStartOver m.wiz).professorName = m.wiz.professorName ∧
    (handleStartOver m.wiz).className = m.wiz.className ∧
    (handleStartOver m.wiz).wordCount = m.wiz.wordCount ∧
    (handleStartOver m.wiz).citationFormat = m.wiz.citationFormat ∧
    (handleStartOver m.wiz).writingStyle = m.wiz.writingStyle ∧
    (handleStartOver m.wiz).error = none ∧
    (handleStartOverClient m).balance = m.balance ∧
    (m.wiz.isGeneratingEssay = true → (handleStartOver m.wiz).currentStep = 3) ∧
    (m.wiz.isGeneratingEssay = false → m.wiz.currentStep ≠ 4 →
       m.wiz.isGeneratingOutline = true → (handleStartOver m.wiz).currentStep = 1) := by
  unfold handleStartOver handleStartOverClient
  simp only [h]
  refine ⟨?_, ?_, ?_, ?_, ?_, ?_, ?_, ?_, ?_, ?_, ?_, ?_, ?_⟩ <;>
    (try intro h1) <;> (try intro h2) <;> (try intro h3) <;>
    simp_all [handleStartOver] <;> split_ifs <;> simp_all

/-- A concrete state whose essay-generation job has just failed. -/
def wizEssayFailed : WizState :=
  { wizPollingEssay with
    topic := "Climate Change Impact", studentName := "Ada",
    error := some "Essay generation failed" }

/-- Witness for C7: a concrete failed essay-generation state keeps its
inputs, loses its error, and lands on step 3 with the balance intact. -/
theorem start_over_preserves_inputs_witness :
    (handleStartOver wizEssayFailed).topic = "Climate Change Impact" ∧
    (handleStartOver wizEssayFailed).currentStep = 3 ∧
    (handleStartOverClient ⟨wizEssayFailed, 5⟩).balance = 5 := by
  have h := start_over_preserves_inputs ⟨wizEssayFailed, 5⟩ (by decide)
  exact ⟨h.1, h.2.2.2.2.2.2.2.2.2.2.2.1 (by decide), h.2.2.2.2.2.2.2.2.2.2.1⟩

/-! ## C8 — progress is a non-decreasing integer percentage -/

/-- C8: with the backend's progress modelled from the spec as a
stage-indexed percentage, any execution that moves through the pipeline
stages in order (a monotone checkpoint sequence `c`, per the spec's
ordering invariant) yields `getStatus` observations whose progress is
non-decreasing over time and bounded by 100. -/
theorem job_progress_monotone (stages : List String) (c : Nat → Nat)
    (hc : Monotone c) (t t' : Nat) (ht : t ≤ t') :
    jobProgressAt stages (c t) ≤ jobProgressAt stages (c t') ∧
    jobProgressAt stages (c t) ≤ 100 := by
  constructor
  · exact min_le_min (le_refl 100)
      (Nat.div_le_div_right (Nat.mul_le_mul_right 100 (hc ht)))
  · exact min_le_left _ _

/-- Witness for C8: along the essay phase's own stage list, observing at
checkpoints 1 and then 2 shows non-decreasing progress. -/
theorem job_progress_monotone_witness :
    jobProgressAt essayPhaseStages 1 ≤ jobProgressAt essayPhaseStages 2 ∧
    jobProgressAt essayPhaseStages 1 ≤ 100 :=
  job_progress_monotone essayPhaseStages (fun n => n) (fun _ _ h => h) 1 2 (by decide)

/-! ## C9 — the CSRF token round-trip can never verify -/

/-- C9: for a mutating (POST) request, the middleware 403s whenever the
`x-csrf-token` header is absent — and it must be absent, because the
`csrf-token` cookie is httpOnly, so the client's `document.cookie` lookup
returns nothing and the interceptor attaches no header; moreover, even a
header equal to the cookie value the middleware itself set (the hash of
the generated token) fails verification, since verification hashes the
header again and SHA-256 does not map the stored hash back to itself —
`verify(issue(t))` is false for every token `t`. -/
theorem csrf_round_trip_never_verifies (h : String → String)
    (secret t fresh : String) (req : CsrfRequest) (jar : List BrowserCookie)
    (hm : req.method = "POST")
    (hnofix : h (hashToken h secret t ++ secret) ≠ hashToken h secret t) :
    (req.headerToken = none →
       csrfMiddleware h secret fresh req = CsrfOutcome.forbidden403) ∧
    (req.csrfCookie = some (hashToken h secret t) →
     req.headerToken = some (hashToken h secret t) →
       csrfMiddleware h secret fresh req = CsrfOutcome.forbidden403) ∧
    verifyToken h secret (hashToken h secret t) (hashToken h secret t) = false ∧
    ((∀ c ∈ jar, c.name = "csrf-token" → c.httpOnly = true) →
       getCsrfToken jar = none ∧ ∀ mth, apiCsrfHeader jar mth = none) := by
  have hver : verifyToken h secret (hashToken h secret t) (hashToken h secret t) = false := by
    simp only [verifyToken, hashToken, beq_eq_false_iff_ne, ne_eq]
    exact hnofix
  refine ⟨?_, ?_, hver, ?_⟩
  · intro hh
    simp [csrfMiddleware, hm, hh]
  · intro hc hh
    simp [csrfMiddleware, hm, hc, hh, hver]
  · intro hjar
    have hnone : getCsrfToken jar = none := by
      have hfind : (documentCookies jar).find? (fun c => c.name == "csrf-token") = none := by
        rw [List.find?_eq_none]
        intro c hcmem
        rw [documentCookies, List.mem_filter] at hcmem
        intro hname
        have : c.httpOnly = true := hjar c hcmem.1 (by simpa using hname)
        simp [this] at hcmem
      simp [getCsrfToken, hfind]
    refine ⟨hnone, fun mth => ?_⟩
    simp [apiCsrfHeader, hnone]

/-- Witness for C9: with a concrete (prefixing) digest, secret and token,
the issued cookie value fails verification against itself, a header-less
POST is 403ed, and a jar holding only an httpOnly `csrf-token` cookie
yields no header. -/
theorem csrf_round_trip_never_verifies_witness :
    csrfMiddleware (fun s => "x" ++ s) "sec" "fresh"
      ⟨"POST", some "cookieval", none⟩ = CsrfOutcome.forbidden403 ∧
    csrfMiddleware (fun s => "x" ++ s) "sec" "fresh"
      ⟨"POST", some (hashToken (fun s => "x" ++ s) "sec" "tok"),
       some (hashToken (fun s => "x" ++ s) "sec" "tok")⟩ = CsrfOutcome.forbidden403 ∧
    getCsrfToken [⟨"csrf-token", "v", true⟩] = none := by
  have h1 := csrf_round_trip_never_verifies (fun s => "x" ++ s) "sec" "tok" "fresh"
    ⟨"POST", some "cookieval", none⟩ [⟨"csrf-token", "v", true⟩] rfl (by decide)
  have h2 := csrf_round_trip_never_verifies (fun s => "x" ++ s) "sec" "tok" "fresh"
    ⟨"POST", some (hashToken (fun s => "x" ++ s) "sec" "tok"),
     some (hashToken (fun s => "x" ++ s) "sec" "tok")⟩ [⟨"csrf-token", "v", true⟩]
    rfl (by decide)
  exact ⟨h1.1 rfl, h2.2.1 rfl rfl, (h1.2.2.2 (by decide)).1⟩

/-! ## C10 — getUserCredits is total and never throws -/

/-- C10: `getUserCredits` returns 0 on every failure path (auth error or
thrown, no authenticated user, profile query error or thrown) and the
profile's credits field when a profile is found; in particular it always
returns a number. -/
theorem user_credits_total (user : DbRes (Option String))
    (fetchProfile : String → DbRes UserProfileRow) :
    (getUserProfile user fetchProfile = none → getUserCredits user fetchProfile = 0) ∧
    (∀ p, getUserProfile user fetchProfile = some p →
       getUserCredits user fetchProfile = p.credits) ∧
    (∀ e, user = DbRes.err e → getUserCredits user fetchProfile = 0) ∧
    (∀ e, user = DbRes.thrown e → getUserCredits user fetchProfile = 0) ∧
    (user = DbRes.ok none → getUserCredits user fetchProfile = 0) ∧
    (∀ uid e, user = DbRes.ok (some uid) → fetchProfile uid = DbRes.err e →
       getUserCredits user fetchProfile = 0) ∧
    (∀ uid e, user = DbRes.ok (some uid) → fetchProfile uid = DbRes.thrown e →
       getUserCredits user fetchProfile = 0) := by
  have hOr : ∀ x : Int, intOr x 0 = x := by
    intro x
    unfold intOr
    split <;> omega
  refine ⟨?_, ?_, ?_, ?_, ?_, ?_, ?_⟩
  · intro hnone
    simp [getUserCredits, hnone]
  · intro p hp
    simp [getUserCredits, hp, hOr]
  · intro e he
    subst he
    simp [getUserCredits, getUserProfile]
  · intro e he
    subst he
    simp [getUserCredits, getUserProfile]
  · intro he
    subst he
    simp [getUserCredits, getUserProfile]
  · intro uid e he hf
    subst he
    simp [getUserCredits, getUserProfile, hf]
  · intro uid e he hf
    subst he
    simp [getUserCredits, getUserProfile, hf]

/-- Witness for C10: an errored auth lookup yields 0; a found profile
with 7 credits yields 7. -/
theorem user_credits_total_witness :
    getUserCredits (DbRes.err "auth down")
      (fun _ => DbRes.ok ⟨"u1", "a@x", 7, "t0", "t0"⟩) = 0 ∧
    getUserCredits (DbRes.ok (some "u1"))
      (fun _ => DbRes.ok ⟨"u1", "a@x", 7, "t0", "t0"⟩) = 7 := by
  constructor
  · exact (user_credits_total (DbRes.err "auth down")
      (fun _ => DbRes.ok ⟨"u1", "a@x", 7, "t0", "t0"⟩)).2.2.1 "auth down" rfl
  · exact (user_credits_total (DbRes.ok (some "u1"))
      (fun _ => DbRes.ok ⟨"u1", "a@x", 7, "t0", "t0"⟩)).2.1
      ⟨"u1", "a@x", 7, "t0", "t0"⟩ rfl
